import Mathlib

/-!
Shallow embedding of the AI-CONNECTIVE backend request-processing plane:
the file/RAG subsystem (`src/unnamed/part_003`, the files handler), the
chat orchestrator (`src/backend/src/handlers/chat.ts`), the conversations
handler (`src/backend/src/handlers/conversations.ts`), the provider
adapters (`src/backend/src/services/bedrock.ts`, gemini service), and the
model registry (`src/backend/src/config/models.ts`).

Conventions of the embedding:
- TypeScript optional (possibly `undefined`) string/number fields become
  `Option String` / `Option Nat`.  TS `===` on such fields is `Option`
  equality (`undefined === undefined` is `true`, matching `none = none`).
- JavaScript truthiness (`x || d`, `if (x)`) is modelled explicitly:
  the empty string, the number 0 and `undefined` are falsy.
- Floating-point dollar amounts are modelled as `ℚ`; the source only
  adds and multiplies decimal literals, which is exact.
- DynamoDB is modelled as an in-memory list of items; S3 as an
  association list from keys to contents.  Handler `catch` blocks that
  map a thrown `Error` to a 500 response are modelled by the route
  function returning status 500 on the error branch.
- Base64-decoded file payloads are modelled by their decoded content
  string (the byte level is irrelevant to every property proved here).
-/

namespace AIConnective

/-- `UserRole` from `src/backend/src/types/index.ts`. -/
inductive UserRole
  | system_admin
  | org_admin
  | company_admin
  | user
deriving DecidableEq, Repr

/-- `FileVisibility` from `src/backend/src/types/index.ts`
(`private` is a Lean keyword, hence the trailing underscore). -/
inductive FileVisibility
  | private_
  | department
  | company
  | organization
  | system
deriving DecidableEq, Repr

/-- `FileCategory` from `src/backend/src/types/index.ts`. -/
inductive FileCategory
  | chat_attachment
  | rag_source
  | knowledge_base
deriving DecidableEq, Repr

/-- `FileType` from `src/backend/src/types/index.ts`. -/
inductive FileType
  | pdf
  | docx
  | txt
  | csv
  | xlsx
deriving DecidableEq, Repr

/-- `FileStatus` from `src/backend/src/types/index.ts`. -/
inductive FileStatus
  | uploading
  | processing
  | ready
  | error
deriving DecidableEq, Repr

/-- JS `a || d` for an optional string: `undefined` and `""` are falsy. -/
def jsOrStr (o : Option String) (d : String) : String :=
  match o with
  | some s => if s = "" then d else s
  | none => d

/-- JS truthiness of an optional string. -/
def jsTruthyStr (o : Option String) : Bool :=
  match o with
  | some s => s ≠ ""
  | none => false

/-- JS truthiness of an optional number (0 and `undefined` are falsy). -/
def jsTruthyNat (o : Option Nat) : Bool :=
  match o with
  | some n => n ≠ 0
  | none => false

/-- DynamoDB `begins_with` / JS `String.startsWith`, modelled on the
character lists of the strings. -/
def beginsWith (pre s : String) : Bool :=
  List.isPrefixOf pre.data s.data

/-- JS `${x}` template interpolation of a possibly-`undefined` string. -/
def jsInterp (o : Option String) : String :=
  match o with
  | some s => s
  | none => "undefined"

/-- `FileRecord` from `src/backend/src/types/index.ts` (the fields the
file handler reads or writes; `GSI2PK = none` stands for the attribute
being absent or set to `null`, which DynamoDB treats alike for a sparse
index). -/
structure FileRecord where
  PK : String
  SK : String
  fileId : String
  fileName : String
  fileType : FileType
  mimeType : String
  s3Key : String
  userId : String
  createdByRole : UserRole
  organizationId : Option String
  companyId : Option String
  departmentId : Option String
  uploadedAt : String
  fileSize : Nat
  status : FileStatus
  visibility : FileVisibility
  category : FileCategory
  description : Option String
  extractedText : Option String
  GSI1PK : String
  GSI1SK : String
  GSI2PK : Option String
  GSI2SK : Option String
deriving DecidableEq, Repr

/-- `getAllowedVisibilities` from `src/unnamed/part_003` lines 42-50.
The role is statically typed, so the `|| ['private']` fallback of the
source is unreachable. -/
def getAllowedVisibilities (role : UserRole) : List FileVisibility :=
  match role with
  | .system_admin => [.private_, .department, .company, .organization, .system]
  | .org_admin => [.private_, .department, .company, .organization]
  | .company_admin => [.private_, .department, .company]
  | .user => [.private_]

/-- `canAccessFile` from `src/unnamed/part_003` lines 53-81. -/
def canAccessFile (file : FileRecord) (userId : String) (userRole : UserRole)
    (userOrgId userCompanyId userDeptId : Option String) : Bool :=
  if file.userId = userId then true
  else if userRole = UserRole.system_admin then true
  else
    match file.visibility with
    | .private_ => false
    | .department => file.departmentId = userDeptId && file.companyId = userCompanyId
    | .company => file.companyId = userCompanyId
    | .organization => file.organizationId = userOrgId
    | .system => true

/-- C3: `canAccessFile` returns true iff the actor is the owner, or a
system_admin, or the file is system-visible, or the visibility is
organization/company/department and the corresponding scope identifiers
of the file equal the actor's. -/
theorem canAccessFile_iff (file : FileRecord) (userId : String) (userRole : UserRole)
    (userOrgId userCompanyId userDeptId : Option String) :
    canAccessFile file userId userRole userOrgId userCompanyId userDeptId = true ↔
      (file.userId = userId ∨
       userRole = UserRole.system_admin ∨
       file.visibility = FileVisibility.system ∨
       (file.visibility = FileVisibility.organization ∧ file.organizationId = userOrgId) ∨
       (file.visibility = FileVisibility.company ∧ file.companyId = userCompanyId) ∨
       (file.visibility = FileVisibility.department ∧ file.companyId = userCompanyId ∧
         file.departmentId = userDeptId)) := by
  unfold canAccessFile
  by_cases h1 : file.userId = userId <;>
    by_cases h2 : userRole = UserRole.system_admin <;>
      cases hv : file.visibility <;> simp [h1, h2, hv] <;> tauto

/-- `FileUploadRequest` from `src/backend/src/types/index.ts`; `fileData`
is modelled by its base64-decoded content string. -/
structure FileUploadRequest where
  fileName : String
  fileType : FileType
  mimeType : String
  fileData : String
  userId : Option String
  visibility : Option FileVisibility
  category : Option FileCategory
  description : Option String
  organizationId : Option String
  companyId : Option String
  departmentId : Option String
  userRole : Option UserRole
deriving DecidableEq, Repr

/-- `FileUploadResponse` from `src/backend/src/types/index.ts`. -/
structure FileUploadResponse where
  fileId : String
  fileName : String
  status : FileStatus
  uploadedAt : String
deriving DecidableEq, Repr

/-- A write effect issued by `uploadFile`: the S3 `PutObjectCommand`
(key, content, contentType) or the DynamoDB `PutCommand` of the file
record. -/
inductive WriteOp
  | s3Put (key content contentType : String)
  | ddbPutFile (record : FileRecord)
deriving DecidableEq, Repr

/-- The `s3Key` composed by `uploadFile` (`src/unnamed/part_003` line 98):
missing scope parts become the literal `default`. -/
def uploadS3Key (request : FileUploadRequest) (fileId : String) : String :=
  jsOrStr request.organizationId "default" ++ "/" ++
    jsOrStr request.companyId "default" ++ "/" ++ jsOrStr request.userId "anonymous" ++
    "/" ++ fileId ++ "/" ++ request.fileName

/-- The `(GSI2PK, GSI2SK)` pair assigned by `uploadFile`
(`src/unnamed/part_003` lines 135-145): each branch of the source's
`if`/`else if` chain assigns both keys, and records falling through the
chain get neither. -/
def uploadGSI2 (request : FileUploadRequest) (now : String) :
    Option String × Option String :=
  let visibility := request.visibility.getD .private_
  if visibility = .system then
    (some "VISIBILITY#system", some ("FILE#" ++ now))
  else if visibility = .organization ∧ jsTruthyStr request.organizationId then
    (some ("ORG#" ++ jsInterp request.organizationId), some ("FILE#" ++ now))
  else if visibility = .company ∧ jsTruthyStr request.companyId then
    (some ("COMPANY#" ++ jsInterp request.companyId), some ("FILE#" ++ now))
  else (none, none)

/-- The `fileRecord` built by `uploadFile` (`src/unnamed/part_003` lines
110-150): base fields, the conditional GSI2 projection from
`uploadGSI2`, and inline text extraction for `txt`/`csv`. -/
def uploadRecord (request : FileUploadRequest) (fileId now : String) : FileRecord :=
  { PK := "FILE#" ++ fileId
    SK := "META"
    fileId := fileId
    fileName := request.fileName
    fileType := request.fileType
    mimeType := request.mimeType
    s3Key := uploadS3Key request fileId
    userId := jsOrStr request.userId "anonymous"
    createdByRole := request.userRole.getD .user
    organizationId := request.organizationId
    companyId := request.companyId
    departmentId := request.departmentId
    uploadedAt := now
    fileSize := request.fileData.length
    status := .ready
    visibility := request.visibility.getD .private_
    category := request.category.getD .chat_attachment
    description := request.description
    extractedText :=
      if request.fileType = .txt ∨ request.fileType = .csv then some request.fileData
      else none
    GSI1PK := "USER#" ++ jsOrStr request.userId "anonymous"
    GSI1SK := "FILE#" ++ now
    GSI2PK := (uploadGSI2 request now).1
    GSI2SK := (uploadGSI2 request now).2 }

/-- `uploadFile` from `src/unnamed/part_003` lines 84-163.  The fresh
`fileId` (`uuidv4()`) and timestamp `now` are passed in.  The result is
the ordered list of writes issued plus the handler response; the
visibility validation throws before either write, so the error branch
carries no writes. -/
def uploadFile (request : FileUploadRequest) (fileId now : String) :
    Except String (List WriteOp × FileUploadResponse) :=
  let visibility := request.visibility.getD .private_
  let allowedVisibilities := getAllowedVisibilities (request.userRole.getD .user)
  if visibility ∉ allowedVisibilities then
    .error ("Role cannot set visibility to this level")
  else
    .ok ([.s3Put (uploadS3Key request fileId) request.fileData request.mimeType,
          .ddbPutFile (uploadRecord request fileId now)],
         { fileId := fileId, fileName := request.fileName
           status := (uploadRecord request fileId now).status
           uploadedAt := now })

/-- C5: `uploadFile` throws (writing nothing: the error branch carries
no write operations) exactly when the request's defaulted visibility is
outside the allowed set for the requester's defaulted role, and is never
rejected when the visibility is allowed. -/
theorem uploadFile_forbidden_iff (request : FileUploadRequest) (fileId now : String) :
    (∃ e, uploadFile request fileId now = .error e) ↔
      request.visibility.getD .private_ ∉
        getAllowedVisibilities (request.userRole.getD .user) := by
  unfold uploadFile
  by_cases h : request.visibility.getD .private_ ∈
      getAllowedVisibilities (request.userRole.getD .user) <;>
    simp [h]

/-- `updateFileVisibility` from `src/unnamed/part_003` lines 259-298,
given the record that `getFile` found (the not-found branch is handled by
the routes below).  Returns the record as rewritten by the single
`UpdateCommand`: the source's `SET visibility = :visibility, GSI2PK =
:gsi2pk, GSI2SK = :gsi2sk` sets `GSI2PK` to `null` for
`private`/`department` but always sets `GSI2SK` to `FILE#<now>`, and
interpolates an absent scope id as the string `"undefined"`. -/
def updateFileVisibility (file : FileRecord) (userId : String) (userRole : UserRole)
    (newVisibility : FileVisibility) (now : String) : Except String FileRecord :=
  if file.userId ≠ userId ∧ userRole ≠ .system_admin then
    .error "Permission denied"
  else if newVisibility ∉ getAllowedVisibilities userRole then
    .error "Role cannot set visibility to this level"
  else
    .ok { file with
      visibility := newVisibility
      GSI2PK :=
        if newVisibility = .system then some "VISIBILITY#system"
        else if newVisibility = .organization then some ("ORG#" ++ jsInterp file.organizationId)
        else if newVisibility = .company then some ("COMPANY#" ++ jsInterp file.companyId)
        else none
      GSI2SK := some ("FILE#" ++ now) }

/-- A concrete company-visible file owned by `alice`, used to exhibit
the GSI2 behaviour of the visibility update. -/
def sampleCompanyFile : FileRecord :=
  { PK := "FILE#f1", SK := "META", fileId := "f1", fileName := "doc.txt"
    fileType := .txt, mimeType := "text/plain"
    s3Key := "org1/c1/alice/f1/doc.txt", userId := "alice"
    createdByRole := .company_admin
    organizationId := some "org1", companyId := some "c1", departmentId := none
    uploadedAt := "2026-01-01T00:00:00.000Z", fileSize := 5, status := .ready
    visibility := .company, category := .rag_source, description := none
    extractedText := some "hello"
    GSI1PK := "USER#alice", GSI1SK := "FILE#2026-01-01T00:00:00.000Z"
    GSI2PK := some "COMPANY#c1", GSI2SK := some "FILE#2026-01-01T00:00:00.000Z" }

/-- C4 counterexample: the owner (a company_admin) relabels a
company-visible file to `private`.  The update succeeds, `GSI2PK` is
nulled, but `GSI2SK` is rewritten to `FILE#<now>` rather than removed —
so the record does NOT end up with both GSI2 keys absent or null, as the
claim requires for `private` visibility. -/
theorem updateVisibility_leaves_gsi2sk :
    ∃ rec, updateFileVisibility sampleCompanyFile "alice" .company_admin .private_
        "2026-02-02T00:00:00.000Z" = .ok rec ∧
      rec.visibility = .private_ ∧
      rec.GSI2PK = none ∧
      rec.GSI2SK = some "FILE#2026-02-02T00:00:00.000Z" ∧
      rec.GSI2SK ≠ none := by
  refine ⟨_, rfl, ?_, ?_, ?_, ?_⟩ <;> decide

/-- C4 amended: the GSI2 projection actually maintained.  Whenever
`uploadFile` succeeds, the record it writes is `uploadRecord`, whose GSI2
keys are present iff the visibility is `system`, or
`organization`/`company` WITH the corresponding request scope id present
and non-empty (an organization- or company-visible upload without that
scope id gets no GSI2 keys).  On a successful visibility update, `GSI2PK`
is as the claim says (null for `private`/`department`) but `GSI2SK` is
always rewritten to `FILE#<now>`, never nulled. -/
theorem gsi2_projection_characterization (request : FileUploadRequest)
    (file : FileRecord) (fileId now uid : String) (role : UserRole)
    (v : FileVisibility) (ops : List WriteOp) (resp : FileUploadResponse)
    (rec' : FileRecord)
    (hup : uploadFile request fileId now = .ok (ops, resp))
    (hupd : updateFileVisibility file uid role v now = .ok rec') :
    WriteOp.ddbPutFile (uploadRecord request fileId now) ∈ ops ∧
    ((uploadRecord request fileId now).GSI2PK =
      (if request.visibility.getD .private_ = .system then some "VISIBILITY#system"
       else if request.visibility.getD .private_ = .organization ∧
           jsTruthyStr request.organizationId then
         some ("ORG#" ++ jsInterp request.organizationId)
       else if request.visibility.getD .private_ = .company ∧
           jsTruthyStr request.companyId then
         some ("COMPANY#" ++ jsInterp request.companyId)
       else none)) ∧
    ((uploadRecord request fileId now).GSI2SK =
      (if request.visibility.getD .private_ = .system ∨
          (request.visibility.getD .private_ = .organization ∧
            jsTruthyStr request.organizationId) ∨
          (request.visibility.getD .private_ = .company ∧
            jsTruthyStr request.companyId) then
        some ("FILE#" ++ now)
       else none)) ∧
    (rec'.GSI2PK =
      (if v = .system then some "VISIBILITY#system"
       else if v = .organization then some ("ORG#" ++ jsInterp file.organizationId)
       else if v = .company then some ("COMPANY#" ++ jsInterp file.companyId)
       else none)) ∧
    rec'.GSI2SK = some ("FILE#" ++ now) := by
  refine ⟨?_, ?_, ?_, ?_⟩
  · unfold uploadFile at hup
    by_cases hv : request.visibility.getD .private_ ∈
        getAllowedVisibilities (request.userRole.getD .user)
    · simp only [hv, not_true_eq_false, if_false, Except.ok.injEq, Prod.mk.injEq] at hup
      rcases hup with ⟨hops, -⟩
      rw [← hops]
      simp
    · simp [hv] at hup
  · show (uploadGSI2 request now).1 = _
    unfold uploadGSI2
    cases hv : request.visibility.getD .private_ <;>
      cases ho : jsTruthyStr request.organizationId <;>
        cases hc : jsTruthyStr request.companyId <;>
          simp_all
  · show (uploadGSI2 request now).2 = _
    unfold uploadGSI2
    cases hv : request.visibility.getD .private_ <;>
      cases ho : jsTruthyStr request.organizationId <;>
        cases hc : jsTruthyStr request.companyId <;>
          simp_all
  · unfold updateFileVisibility at hupd
    by_cases h1 : file.userId ≠ uid ∧ role ≠ .system_admin
    · simp [h1] at hupd
    · by_cases h2 : v ∈ getAllowedVisibilities role
      · simp only [h1, if_false, h2, not_true_eq_false] at hupd
        injection hupd with hupd
        subst hupd
        simp
      · simp [h1, h2] at hupd

/-- Witness request for `gsi2_projection_characterization`: an
organization-visible upload by an org_admin whose request omits the
organization id. -/
def orgUploadNoOrgId : FileUploadRequest :=
  { fileName := "a.txt", fileType := .txt, mimeType := "text/plain"
    fileData := "data", userId := some "bob", visibility := some .organization
    category := none, description := none, organizationId := none
    companyId := none, departmentId := none, userRole := some .org_admin }

/-- Witness for `gsi2_projection_characterization`: the concrete upload
`orgUploadNoOrgId` (which ends up with no GSI2 keys despite organization
visibility) together with the concrete visibility update of
`sampleCompanyFile` to `organization` by a system_admin. -/
theorem gsi2_projection_characterization_witness :
    ∃ ops resp rec',
      uploadFile orgUploadNoOrgId "f9" "2026-03-03T00:00:00.000Z" = .ok (ops, resp) ∧
      updateFileVisibility sampleCompanyFile "carol" .system_admin .organization
        "2026-03-03T00:00:00.000Z" = .ok rec' ∧
      WriteOp.ddbPutFile (uploadRecord orgUploadNoOrgId "f9" "2026-03-03T00:00:00.000Z") ∈ ops ∧
      (uploadRecord orgUploadNoOrgId "f9" "2026-03-03T00:00:00.000Z").GSI2PK = none ∧
      (uploadRecord orgUploadNoOrgId "f9" "2026-03-03T00:00:00.000Z").GSI2SK = none ∧
      rec'.GSI2PK = some "ORG#org1" ∧
      rec'.GSI2SK = some "FILE#2026-03-03T00:00:00.000Z" := by
  refine ⟨_, _, _, rfl, rfl, ?_⟩
  have h := gsi2_projection_characterization orgUploadNoOrgId sampleCompanyFile
    "f9" "2026-03-03T00:00:00.000Z" "carol" .system_admin .organization _ _ _ rfl rfl
  refine ⟨h.1, ?_, ?_, ?_, h.2.2.2.2⟩
  · rw [h.2.1]; decide
  · rw [h.2.2.1]; decide
  · rw [h.2.2.2.1]; decide

/-- In-memory model of the stores the files handler touches: the
DynamoDB table restricted to file records, and the S3 bucket's keys. -/
structure FilesState where
  records : List FileRecord
  blobs : List String
deriving DecidableEq, Repr

/-- `getFile` from `src/unnamed/part_003` lines 246-256: DynamoDB
`GetCommand` at `PK=FILE#<fileId>, SK=META` (despite its source comment
saying "with access check", it performs none). -/
def getFileDb (records : List FileRecord) (fileId : String) : Option FileRecord :=
  records.find? (fun f => f.PK == "FILE#" ++ fileId && f.SK == "META")

/-- The `GET /files/{fileId}` route from `src/unnamed/part_003` lines
420-428.  The handler reads only the path; `callerUserId`/`callerRole`
stand for whatever identity the HTTP caller has and are never consulted.
Returns the status code and the `file` object of the 200 body. -/
def filesGetRoute (st : FilesState) (fileId : String)
    (callerUserId : String) (callerRole : UserRole) : Nat × Option FileRecord :=
  match getFileDb st.records fileId with
  | none => (404, none)
  | some file => (200, some file)

/-- The `DELETE /files/{fileId}` route from `src/unnamed/part_003` lines
301-326 and 448-460: `deleteFile` throws on a missing record or a
permission failure, and the handler's catch-all maps every thrown error
to a 500 response; on success the S3 object and the record are deleted
and the route returns 200. -/
def deleteFileRoute (st : FilesState) (fileId userId : String) (userRole : UserRole) :
    Nat × FilesState :=
  match getFileDb st.records fileId with
  | none => (500, st)
  | some file =>
    if file.userId ≠ userId ∧ userRole ≠ .system_admin then (500, st)
    else
      (200,
       { records := st.records.filter
           (fun g => !(g.PK == "FILE#" ++ fileId && g.SK == "META"))
         blobs := st.blobs.filter (fun k => !(k == file.s3Key)) })

/-- A one-file store holding `sampleCompanyFile` and its blob. -/
def sampleFilesState : FilesState :=
  { records := [sampleCompanyFile], blobs := ["org1/c1/alice/f1/doc.txt"] }

/-- C7 counterexample: deleting `f1` twice as its owner returns 200 for
the first call but 500 (the catch-all mapping of the thrown `File not
found`) for the second — neither of the two outcomes (200 then 404, or
200 twice) the claim permits. -/
theorem delete_twice_returns_500 :
    (deleteFileRoute sampleFilesState "f1" "alice" .user).1 = 200 ∧
    (deleteFileRoute (deleteFileRoute sampleFilesState "f1" "alice" .user).2
      "f1" "alice" .user).1 = 500 ∧
    (500 : Nat) ≠ 404 ∧ (500 : Nat) ≠ 200 := by
  decide

/-- After deleting the record with key `FILE#<fileId>`, a lookup of that
fileId finds nothing. -/
theorem getFileDb_after_delete (records : List FileRecord) (fileId : String) :
    getFileDb (records.filter
      (fun g => !(g.PK == "FILE#" ++ fileId && g.SK == "META"))) fileId = none := by
  rw [getFileDb, List.find?_eq_none]
  intro f hf
  have hmem := List.of_mem_filter hf
  simp only [Bool.not_eq_true', Bool.and_eq_false_iff, beq_eq_false_iff_ne, ne_eq] at hmem
  simp only [Bool.and_eq_true, beq_iff_eq, not_and]
  tauto

/-- C7 amended: for every stored file, the owner (or a system_admin)
deleting it twice gets 200 then 500 — not 404 — and a subsequent
`GET /files/{fileId}` returns 404. -/
theorem delete_twice_200_500_get_404 (st : FilesState) (fileId userId : String)
    (role : UserRole) (file : FileRecord)
    (hfind : getFileDb st.records fileId = some file)
    (hperm : file.userId = userId ∨ role = .system_admin) :
    (deleteFileRoute st fileId userId role).1 = 200 ∧
    (deleteFileRoute (deleteFileRoute st fileId userId role).2 fileId userId role).1 = 500 ∧
    (filesGetRoute (deleteFileRoute st fileId userId role).2 fileId userId role).1 = 404 := by
  have hcond : ¬(file.userId ≠ userId ∧ role ≠ UserRole.system_admin) := by tauto
  have h1 : deleteFileRoute st fileId userId role =
      (200,
       { records := st.records.filter
           (fun g => !(g.PK == "FILE#" ++ fileId && g.SK == "META"))
         blobs := st.blobs.filter (fun k => !(k == file.s3Key)) }) := by
    unfold deleteFileRoute
    rw [hfind]
    simp [hcond]
  refine ⟨by rw [h1], ?_, ?_⟩
  · rw [h1]
    unfold deleteFileRoute
    rw [getFileDb_after_delete]
  · rw [h1]
    unfold filesGetRoute
    rw [getFileDb_after_delete]

/-- Witness for `delete_twice_200_500_get_404`: the concrete one-file
store, deleted twice by the file's owner. -/
theorem delete_twice_200_500_get_404_witness :
    getFileDb sampleFilesState.records "f1" = some sampleCompanyFile ∧
    sampleCompanyFile.userId = "alice" ∧
    (deleteFileRoute sampleFilesState "f1" "alice" .company_admin).1 = 200 ∧
    (deleteFileRoute (deleteFileRoute sampleFilesState "f1" "alice" .company_admin).2
      "f1" "alice" .company_admin).1 = 500 ∧
    (filesGetRoute (deleteFileRoute sampleFilesState "f1" "alice" .company_admin).2
      "f1" "alice" .company_admin).1 = 404 := by
  have h := delete_twice_200_500_get_404 sampleFilesState "f1" "alice" .company_admin
    sampleCompanyFile (by decide) (Or.inl (by decide))
  exact ⟨by decide, by decide, h.1, h.2.1, h.2.2⟩

/-- A private file owned by `other`, with inline extracted text and an
S3 key, whose id a stranger can guess. -/
def samplePrivateFile : FileRecord :=
  { PK := "FILE#p1", SK := "META", fileId := "p1", fileName := "secret.txt"
    fileType := .txt, mimeType := "text/plain"
    s3Key := "default/default/other/p1/secret.txt", userId := "other"
    createdByRole := .user
    organizationId := none, companyId := none, departmentId := none
    uploadedAt := "2026-01-01T00:00:00.000Z", fileSize := 9, status := .ready
    visibility := .private_, category := .chat_attachment, description := none
    extractedText := some "SECRET-42"
    GSI1PK := "USER#other", GSI1SK := "FILE#2026-01-01T00:00:00.000Z"
    GSI2PK := none, GSI2SK := none }

/-- C9: `GET /files/{fileId}` applies no access check: whenever the
record exists, every caller — whatever their identity or role — gets
status 200 with the entire record (in particular its `extractedText` and
`s3Key` fields), and the response does not depend on the caller at all. -/
theorem files_get_no_access_check (st : FilesState) (fileId : String)
    (file : FileRecord) (callerA callerB : String) (roleA roleB : UserRole)
    (hfind : getFileDb st.records fileId = some file) :
    filesGetRoute st fileId callerA roleA = (200, some file) ∧
    (filesGetRoute st fileId callerA roleA).2.map (fun f => f.extractedText) =
      some file.extractedText ∧
    (filesGetRoute st fileId callerA roleA).2.map (fun f => f.s3Key) = some file.s3Key ∧
    filesGetRoute st fileId callerA roleA = filesGetRoute st fileId callerB roleB := by
  unfold filesGetRoute
  rw [hfind]
  exact ⟨rfl, rfl, rfl, rfl⟩

/-- Witness for `files_get_no_access_check`: a stranger (`role=user`, no
relation to `other`) who guesses the id of `other`'s private file gets
the full record, extracted text and blob key included, and so does a
differently-scoped caller. -/
theorem files_get_no_access_check_witness :
    getFileDb [samplePrivateFile] "p1" = some samplePrivateFile ∧
    canAccessFile samplePrivateFile "stranger" .user none none none = false ∧
    filesGetRoute { records := [samplePrivateFile], blobs := [] } "p1" "stranger" .user =
      (200, some samplePrivateFile) ∧
    (filesGetRoute { records := [samplePrivateFile], blobs := [] } "p1" "stranger"
      .user).2.map (fun f => f.extractedText) = some (some "SECRET-42") := by
  have h := files_get_no_access_check
    { records := [samplePrivateFile], blobs := [] } "p1" samplePrivateFile
    "stranger" "other2" .user .company_admin (by decide)
  refine ⟨by decide, by decide, h.1, ?_⟩
  rw [h.2.1]
  decide

/-- The stores the chat handler's RAG step touches: file records plus
S3 contents keyed by `s3Key`. -/
structure RagStore where
  records : List FileRecord
  blobs : List (String × String)
deriving DecidableEq, Repr

/-- `getFileContent` from `src/backend/src/handlers/chat.ts` lines
51-89: fetch the record by id (no access check, no caller identity in
scope), return `extractedText` when truthy, otherwise the S3 object's
UTF-8 content; any failure (missing record, missing object, absent
body) yields `null`. -/
def getFileContent (store : RagStore) (fileId : String) : Option String :=
  match getFileDb store.records fileId with
  | none => none
  | some file =>
    if jsTruthyStr file.extractedText then file.extractedText
    else store.blobs.lookup file.s3Key

/-- The per-file delimited block pushed by the handler
(`src/backend/src/handlers/chat.ts` line 234). -/
def ragDelimited (content : String) : String :=
  "--- ファイル内容 ---\n" ++ content ++ "\n--- ファイル終了 ---"

/-- The `fileContents` array assembled by the handler (lines 230-236):
one delimited block per file id whose content came back truthy. -/
def ragFileContents (store : RagStore) (fileIds : List String) : List String :=
  fileIds.filterMap (fun fileId =>
    let content := getFileContent store fileId
    if jsTruthyStr content then some (ragDelimited (content.getD "")) else none)

/-- `systemPromptWithFiles` as computed by the handler (lines 227-240):
the incoming system prompt (`|| ''`), with the fixed Japanese instruction
and the joined blocks appended when any file contributed content. -/
def assembleSystemPrompt (store : RagStore) (systemPrompt : Option String)
    (fileIds : Option (List String)) : String :=
  let base := jsOrStr systemPrompt ""
  match fileIds with
  | none => base
  | some fids =>
    if fids.length > 0 then
      let fileContents := ragFileContents store fids
      if fileContents.length > 0 then
        base ++ "\n\n以下は参照ファイルの内容です。質問に回答する際にこのデータを参照してください:\n\n" ++
          String.intercalate "\n\n" fileContents
      else base
    else base

/-- C2 counterexample: the store holds only `other`'s private file `p1`
(content `SECRET-42`), which the caller `me` cannot access under
`canAccessFile`; yet the assembled system prompt for `fileIds=["p1"]`
contains that file's content verbatim — the file is not skipped (removing
the id changes the prompt), so inaccessible files are NOT skipped
silently. -/
theorem rag_includes_inaccessible_file :
    canAccessFile samplePrivateFile "me" .user none none none = false ∧
    assembleSystemPrompt { records := [samplePrivateFile], blobs := [] } none
        (some ["p1"]) =
      "\n\n以下は参照ファイルの内容です。質問に回答する際にこのデータを参照してください:\n\n--- ファイル内容 ---\nSECRET-42\n--- ファイル終了 ---" ∧
    assembleSystemPrompt { records := [samplePrivateFile], blobs := [] } none
        (some []) = "" := by
  refine ⟨by decide, ?_, by decide⟩
  decide

/-- C2 amended: what is actually skipped silently.  A file id with no
stored record contributes nothing: the assembled prompt with that id in
any position of `fileIds` equals the prompt without it, and the request
does not error (the assembly is a total function).  No access predicate
is consulted anywhere in the assembly — `getFileContent` and
`assembleSystemPrompt` take no caller identity at all, so any existing
file's content is injected regardless of who calls
(`rag_includes_inaccessible_file` exhibits this on a private file). -/
theorem assemble_skips_missing_file (store : RagStore) (systemPrompt : Option String)
    (fids1 fids2 : List String) (fid : String)
    (h : getFileDb store.records fid = none) :
    assembleSystemPrompt store systemPrompt (some (fids1 ++ fid :: fids2)) =
      assembleSystemPrompt store systemPrompt (some (fids1 ++ fids2)) := by
  have hc : getFileContent store fid = none := by
    unfold getFileContent
    rw [h]
  have hfc : ragFileContents store (fids1 ++ fid :: fids2) =
      ragFileContents store (fids1 ++ fids2) := by
    unfold ragFileContents
    simp [List.filterMap_append, List.filterMap_cons, hc, jsTruthyStr]
  by_cases h2 : (fids1 ++ fids2).length > 0
  · have h1 : (fids1 ++ fid :: fids2).length > 0 := by simp
    simp only [assembleSystemPrompt, hfc, h1, h2, if_true]
  · have hlen : (fids1 ++ fids2).length = 0 := by omega
    have hnil := List.append_eq_nil.mp (List.length_eq_zero.mp hlen)
    obtain ⟨ha, hb⟩ := hnil
    subst ha
    subst hb
    simp [assembleSystemPrompt, ragFileContents, hc, jsTruthyStr]

/-- Witness for `assemble_skips_missing_file`: dropping the unknown id
`nope` from `["p1", "nope"]` leaves the assembled prompt unchanged on
the concrete store. -/
theorem assemble_skips_missing_file_witness :
    getFileDb [samplePrivateFile] "nope" = none ∧
    assembleSystemPrompt { records := [samplePrivateFile], blobs := [] } (some "sys")
        (some (["p1"] ++ "nope" :: [])) =
      assembleSystemPrompt { records := [samplePrivateFile], blobs := [] } (some "sys")
        (some (["p1"] ++ [])) :=
  ⟨by decide,
   assemble_skips_missing_file { records := [samplePrivateFile], blobs := [] }
     (some "sys") ["p1"] [] "nope" (by decide)⟩

/-- `AIProvider` from `src/backend/src/types/index.ts`. -/
inductive AIProvider
  | bedrock
  | gemini
deriving DecidableEq, Repr

/-- Model category from `src/backend/src/types/index.ts`. -/
inductive ModelCategory
  | reasoning
  | balanced
  | fast
  | code
  | multimodal
deriving DecidableEq, Repr

/-- `ModelPricing` from `src/backend/src/types/index.ts`: dollars per
1M tokens. -/
structure ModelPricing where
  input : ℚ
  output : ℚ
deriving DecidableEq, Repr

/-- `ModelInfo` from `src/backend/src/types/index.ts`. -/
structure ModelInfo where
  id : String
  provider : AIProvider
  name : String
  description : String
  category : ModelCategory
  supportsImages : Bool
  maxTokens : Nat
  pricing : ModelPricing
deriving DecidableEq, Repr

/-- `MODEL_CONFIGS` from `src/backend/src/config/models.ts` lines 3-101:
the process-wide registry, an association list from model id to its
metadata and pricing. -/
def MODEL_CONFIGS : List (String × ModelInfo) :=
  [("us.anthropic.claude-opus-4-5-20251101-v1:0",
    { id := "us.anthropic.claude-opus-4-5-20251101-v1:0", provider := .bedrock
      name := "Claude Opus 4.5", description := "最高性能・複雑なタスク向け"
      category := .reasoning, supportsImages := true, maxTokens := 4096
      pricing := { input := 15, output := 75 } }),
   ("us.anthropic.claude-sonnet-4-5-20250929-v1:0",
    { id := "us.anthropic.claude-sonnet-4-5-20250929-v1:0", provider := .bedrock
      name := "Claude Sonnet 4.5", description := "バランス型・高速"
      category := .balanced, supportsImages := true, maxTokens := 4096
      pricing := { input := 3, output := 15 } }),
   ("us.anthropic.claude-haiku-4-5-20251001-v1:0",
    { id := "us.anthropic.claude-haiku-4-5-20251001-v1:0", provider := .bedrock
      name := "Claude Haiku 4.5", description := "最速・低コスト"
      category := .fast, supportsImages := true, maxTokens := 4096
      pricing := { input := 0.8, output := 4 } }),
   ("us.amazon.nova-pro-v1:0",
    { id := "us.amazon.nova-pro-v1:0", provider := .bedrock
      name := "Nova Pro", description := "AWS高性能・マルチモーダル"
      category := .reasoning, supportsImages := true, maxTokens := 5000
      pricing := { input := 0.8, output := 3.2 } }),
   ("us.amazon.nova-lite-v1:0",
    { id := "us.amazon.nova-lite-v1:0", provider := .bedrock
      name := "Nova Lite", description := "高速・コスパ最強"
      category := .fast, supportsImages := true, maxTokens := 5000
      pricing := { input := 0.06, output := 0.24 } }),
   ("us.meta.llama4-scout-17b-instruct-v1:0",
    { id := "us.meta.llama4-scout-17b-instruct-v1:0", provider := .bedrock
      name := "Llama 4 Scout", description := "MoE・軽量高性能"
      category := .balanced, supportsImages := false, maxTokens := 4096
      pricing := { input := 0.17, output := 0.17 } }),
   ("us.meta.llama3-3-70b-instruct-v1:0",
    { id := "us.meta.llama3-3-70b-instruct-v1:0", provider := .bedrock
      name := "Llama 3.3 70B", description := "オープンソース大規模"
      category := .reasoning, supportsImages := false, maxTokens := 4096
      pricing := { input := 0.72, output := 0.72 } }),
   ("gemini-3-flash-preview",
    { id := "gemini-3-flash-preview", provider := .gemini
      name := "Gemini 3 Flash", description := "最新・高速マルチモーダル"
      category := .fast, supportsImages := true, maxTokens := 8192
      pricing := { input := 0.5, output := 3 } }),
   ("gemini-3-pro-preview",
    { id := "gemini-3-pro-preview", provider := .gemini
      name := "Gemini 3 Pro", description := "Google最高性能"
      category := .reasoning, supportsImages := true, maxTokens := 8192
      pricing := { input := 2.5, output := 10 } })]

/-- `getModelInfo` from `src/backend/src/config/models.ts` lines 103-105
(`undefined` on an unknown id becomes `none`). -/
def getModelInfo (modelId : String) : Option ModelInfo :=
  MODEL_CONFIGS.lookup modelId

/-- `calculateCost` from `src/backend/src/handlers/chat.ts` lines 41-48. -/
def calculateCost (modelId : String) (inputTokens outputTokens : Nat) : ℚ :=
  match MODEL_CONFIGS.lookup modelId with
  | none => 0
  | some modelInfo =>
      (inputTokens : ℚ) / 1000000 * modelInfo.pricing.input +
        (outputTokens : ℚ) / 1000000 * modelInfo.pricing.output

/-- Message role (`'user' | 'assistant'`). -/
inductive MsgRole
  | user
  | assistant
deriving DecidableEq, Repr

/-- `Conversation` metadata record from `src/backend/src/types/index.ts`
(the fields `saveConversation`/`saveMessage` write). -/
structure Conversation where
  PK : String
  SK : String
  conversationId : String
  title : String
  userId : String
  modelId : String
  createdAt : String
  updatedAt : String
  messageCount : Nat
  totalInputTokens : Nat
  totalOutputTokens : Nat
  totalCost : ℚ
  GSI1PK : String
  GSI1SK : String
deriving DecidableEq, Repr

/-- `ConversationMessage` from `src/backend/src/types/index.ts` as
written by `saveMessage` (absent token fields stay `none`; `cost` is
always set). -/
structure ConversationMessage where
  PK : String
  SK : String
  messageId : String
  role : MsgRole
  content : String
  modelId : Option String
  inputTokens : Option Nat
  outputTokens : Option Nat
  cost : ℚ
  createdAt : String
deriving DecidableEq, Repr

/-- The single-partition state of one conversation: its `META` item and
its `MSG#...` items in insertion order. -/
structure ConvPartition where
  meta : Conversation
  messages : List ConversationMessage
deriving DecidableEq, Repr

/-- The new-conversation branch of `saveConversation`
(`src/backend/src/handlers/chat.ts` lines 101-122). -/
def newConversation (conversationId userId modelId title now : String) : ConvPartition :=
  { meta :=
      { PK := "CONV#" ++ conversationId, SK := "META"
        conversationId := conversationId, title := title, userId := userId
        modelId := modelId, createdAt := now, updatedAt := now
        messageCount := 0, totalInputTokens := 0, totalOutputTokens := 0
        totalCost := 0
        GSI1PK := "USER#" ++ userId, GSI1SK := "CONV#" ++ now }
    messages := [] }

/-- The existing-conversation branch of `saveConversation` (lines
124-135): only `updatedAt` and the GSI1 sort key are rewritten. -/
def touchConversation (p : ConvPartition) (now : String) : ConvPartition :=
  { p with meta := { p.meta with updatedAt := now, GSI1SK := "CONV#" ++ now } }

/-- `saveMessage` from `src/backend/src/handlers/chat.ts` lines 140-190:
insert the message item (cost computed only when model id and BOTH token
counts are truthy), then — only when a token count is truthy — bump
`messageCount`, add the tokens and cost to the totals and refresh
`updatedAt` on the `META` item. -/
def saveMessage (p : ConvPartition) (conversationId : String) (role : MsgRole)
    (content : String) (modelId : Option String)
    (inputTokens outputTokens : Option Nat) (messageId now : String) : ConvPartition :=
  let cost : ℚ :=
    if jsTruthyStr modelId && jsTruthyNat inputTokens && jsTruthyNat outputTokens then
      calculateCost (modelId.getD "") (inputTokens.getD 0) (outputTokens.getD 0)
    else 0
  let message : ConversationMessage :=
    { PK := "CONV#" ++ conversationId
      SK := "MSG#" ++ now ++ "#" ++ messageId
      messageId := messageId, role := role, content := content
      modelId := modelId, inputTokens := inputTokens, outputTokens := outputTokens
      cost := cost, createdAt := now }
  if jsTruthyNat inputTokens || jsTruthyNat outputTokens then
    { meta :=
        { p.meta with
          messageCount := p.meta.messageCount + 1
          totalInputTokens := p.meta.totalInputTokens + inputTokens.getD 0
          totalOutputTokens := p.meta.totalOutputTokens + outputTokens.getD 0
          totalCost := p.meta.totalCost + cost
          updatedAt := now }
      messages := p.messages ++ [message] }
  else { p with messages := p.messages ++ [message] }

/-- The data of one successful chat turn as persisted by the handler
(`src/backend/src/handlers/chat.ts` lines 257-289): the last user
message's content, the assistant response, the request's model, the
provider-reported usage, the generated message ids and the timestamps of
the three writes. -/
structure TurnData where
  userContent : String
  assistantContent : String
  model : String
  usage : Option (Nat × Nat)
  userMsgId : String
  assistantMsgId : String
  t0 : String
  t1 : String
  t2 : String
deriving DecidableEq, Repr

/-- The two `saveMessage` calls of a turn (handler lines 270-281): the
user message carries no model and no tokens; the assistant message
carries the request model and `response.usage?.inputTokens/outputTokens`. -/
def persistTurnSaves (p : ConvPartition) (conversationId : String) (turn : TurnData) :
    ConvPartition :=
  let p1 := saveMessage p conversationId .user turn.userContent none none none
    turn.userMsgId turn.t1
  saveMessage p1 conversationId .assistant turn.assistantContent (some turn.model)
    (turn.usage.map Prod.fst) (turn.usage.map Prod.snd) turn.assistantMsgId turn.t2

/-- A whole turn on an existing conversation: `saveConversation`
(update branch) then the two message saves. -/
def persistTurn (conversationId : String) (p : ConvPartition) (turn : TurnData) :
    ConvPartition :=
  persistTurnSaves (touchConversation p turn.t0) conversationId turn

/-- The first turn of a fresh conversation: `saveConversation` (insert
branch, zeroed totals) then the two message saves.  The title is the
last user message's first 50 characters, computed by the handler. -/
def firstTurn (conversationId userId title : String) (turn : TurnData) : ConvPartition :=
  persistTurnSaves (newConversation conversationId userId turn.model title turn.t0)
    conversationId turn

/-- A fresh conversation carried through its first turn and any number
of follow-up turns. -/
def runTurns (conversationId userId title : String) (first : TurnData)
    (rest : List TurnData) : ConvPartition :=
  rest.foldl (persistTurn conversationId) (firstTurn conversationId userId title first)

/-- A concrete persisted turn: usage 10 input / 20 output tokens on the
Gemini 3 Flash model. -/
def sampleTurn : TurnData :=
  { userContent := "How old is Alice?", assistantContent := "Alice is 30."
    model := "gemini-3-flash-preview", usage := some (10, 20)
    userMsgId := "m1", assistantMsgId := "m2"
    t0 := "2026-01-01T00:00:00.000Z", t1 := "2026-01-01T00:00:01.000Z"
    t2 := "2026-01-01T00:00:02.000Z" }

/-- C1 counterexample: after one successful persisted turn on a fresh
conversation, the partition holds 2 items whose SK begins with `MSG#`
(the user and the assistant message), but `messageCount` is 1 — the
user-message save skips the metadata update because the user message
carries no tokens.  So `messageCount` does not equal the number of
`MSG#` items. -/
theorem turn_messageCount_mismatch :
    (firstTurn "c1" "u1" "How old is Alice?" sampleTurn).meta.messageCount = 1 ∧
    ((firstTurn "c1" "u1" "How old is Alice?" sampleTurn).messages.filter
      (fun m => beginsWith "MSG#" m.SK)).length = 2 ∧
    (1 : Nat) ≠ 2 := by
  refine ⟨by decide, by decide, by decide⟩

/-- The metadata-vs-messages relationship that the code actually
maintains: token and cost totals equal the sums over the message items
(absent fields as 0), while `messageCount` counts only the messages with
a truthy token count. -/
def totalsInvariant (p : ConvPartition) : Prop :=
  p.meta.totalInputTokens = (p.messages.map (fun m => m.inputTokens.getD 0)).sum ∧
  p.meta.totalOutputTokens = (p.messages.map (fun m => m.outputTokens.getD 0)).sum ∧
  p.meta.totalCost = (p.messages.map (fun m => m.cost)).sum ∧
  p.meta.messageCount = (p.messages.filter
    (fun m => jsTruthyNat m.inputTokens || jsTruthyNat m.outputTokens)).length

/-- A falsy optional token count contributes 0. -/
theorem jsTruthyNat_false_getD {o : Option Nat} (h : jsTruthyNat o = false) :
    o.getD 0 = 0 := by
  cases o <;> simp_all [jsTruthyNat]

/-- A fresh conversation satisfies the totals invariant. -/
theorem totalsInvariant_newConversation (cid uid mid title now : String) :
    totalsInvariant (newConversation cid uid mid title now) := by
  simp [totalsInvariant, newConversation]

/-- The update branch of `saveConversation` preserves the invariant. -/
theorem totalsInvariant_touch (p : ConvPartition) (now : String)
    (h : totalsInvariant p) : totalsInvariant (touchConversation p now) := by
  simpa [totalsInvariant, touchConversation] using h

/-- `saveMessage` preserves the totals invariant. -/
theorem totalsInvariant_saveMessage (p : ConvPartition) (cid : String) (role : MsgRole)
    (content : String) (modelId : Option String) (inTok outTok : Option Nat)
    (mid now : String) (h : totalsInvariant p) :
    totalsInvariant (saveMessage p cid role content modelId inTok outTok mid now) := by
  obtain ⟨h1, h2, h3, h4⟩ := h
  unfold saveMessage
  cases hg : (jsTruthyNat inTok || jsTruthyNat outTok)
  · have hi : jsTruthyNat inTok = false := by
      rcases Bool.or_eq_false_iff.mp hg with ⟨hi, -⟩
      exact hi
    have ho : jsTruthyNat outTok = false := by
      rcases Bool.or_eq_false_iff.mp hg with ⟨-, ho⟩
      exact ho
    simp [totalsInvariant, hg, h1, h2, h3, h4, hi, ho, jsTruthyNat_false_getD,
      List.filter_append]
  · simp [totalsInvariant, hg, h1, h2, h3, h4, List.filter_append]

/-- A full turn on an existing conversation preserves the invariant. -/
theorem totalsInvariant_persistTurn (cid : String) (p : ConvPartition) (turn : TurnData)
    (h : totalsInvariant p) : totalsInvariant (persistTurn cid p turn) :=
  totalsInvariant_saveMessage _ _ _ _ _ _ _ _ _
    (totalsInvariant_saveMessage _ _ _ _ _ _ _ _ _ (totalsInvariant_touch _ _ h))

/-- C1 amended: after every sequence of successfully persisted turns
starting from a fresh conversation, `totalInputTokens`,
`totalOutputTokens` and `totalCost` equal the sums of the corresponding
fields over the partition's message items (absent fields counting 0) —
but `messageCount` equals the number of messages with a non-zero token
count, NOT the number of `MSG#` items: each turn adds two `MSG#` items
while incrementing `messageCount` at most once. -/
theorem runTurns_totals_invariant (cid uid title : String) (first : TurnData)
    (rest : List TurnData) : totalsInvariant (runTurns cid uid title first rest) := by
  unfold runTurns firstTurn persistTurnSaves
  have hbase := totalsInvariant_saveMessage _ cid .assistant first.assistantContent
    (some first.model) (first.usage.map Prod.fst) (first.usage.map Prod.snd)
    first.assistantMsgId first.t2
    (totalsInvariant_saveMessage _ cid .user first.userContent none none none
      first.userMsgId first.t1
      (totalsInvariant_newConversation cid uid first.model title first.t0))
  revert hbase
  generalize (saveMessage _ cid MsgRole.assistant _ _ _ _ _ _) = q
  intro hbase
  induction rest generalizing q with
  | nil => exact hbase
  | cons t ts ih => exact ih _ (totalsInvariant_persistTurn cid q t hbase)

/-- C6: whenever a turn's response carries usage `(i, o)` with both
counts non-zero and the request's model is in the registry, the
persisted assistant message is the partition's last item and records
exactly `cost = (i/1e6)·pricing.input + (o/1e6)·pricing.output` (exact
rational equality, hence within any tolerance). -/
theorem assistant_message_cost_formula (p : ConvPartition) (cid : String)
    (turn : TurnData) (mi : ModelInfo) (i o : Nat)
    (husage : turn.usage = some (i, o))
    (hmodel : MODEL_CONFIGS.lookup turn.model = some mi)
    (hi : i ≠ 0) (ho : o ≠ 0) :
    (persistTurnSaves p cid turn).messages.getLast? = some
      { PK := "CONV#" ++ cid
        SK := "MSG#" ++ turn.t2 ++ "#" ++ turn.assistantMsgId
        messageId := turn.assistantMsgId, role := .assistant
        content := turn.assistantContent, modelId := some turn.model
        inputTokens := some i, outputTokens := some o
        cost := (i : ℚ) / 1000000 * mi.pricing.input +
          (o : ℚ) / 1000000 * mi.pricing.output
        createdAt := turn.t2 } := by
  have hne : turn.model ≠ "" := by
    intro he
    rw [he] at hmodel
    have hnone : List.lookup "" MODEL_CONFIGS = none := by decide
    rw [hnone] at hmodel
    cases hmodel
  have hti : jsTruthyNat (some i) = true := by simp [jsTruthyNat, hi]
  have hto : jsTruthyNat (some o) = true := by simp [jsTruthyNat, ho]
  have htm : jsTruthyStr (some turn.model) = true := by simp [jsTruthyStr, hne]
  unfold persistTurnSaves saveMessage
  rw [husage]
  simp [hti, hto, htm, calculateCost, hmodel]

/-- Witness for `assistant_message_cost_formula`: the concrete turn
`sampleTurn` (10/20 tokens on Gemini 3 Flash) on a fresh conversation. -/
theorem assistant_message_cost_formula_witness :
    sampleTurn.usage = some (10, 20) ∧ (10 : Nat) ≠ 0 ∧ (20 : Nat) ≠ 0 ∧
    ∃ mi : ModelInfo, MODEL_CONFIGS.lookup sampleTurn.model = some mi ∧
      (persistTurnSaves
        (newConversation "c1" "u1" sampleTurn.model "How old is Alice?" sampleTurn.t0)
        "c1" sampleTurn).messages.getLast? = some
        { PK := "CONV#c1"
          SK := "MSG#" ++ sampleTurn.t2 ++ "#" ++ sampleTurn.assistantMsgId
          messageId := sampleTurn.assistantMsgId, role := .assistant
          content := sampleTurn.assistantContent, modelId := some sampleTurn.model
          inputTokens := some 10, outputTokens := some 20
          cost := (10 : ℚ) / 1000000 * mi.pricing.input +
            (20 : ℚ) / 1000000 * mi.pricing.output
          createdAt := sampleTurn.t2 } :=
  ⟨rfl, by decide, by decide, _, rfl,
   assistant_message_cost_formula _ "c1" sampleTurn _ 10 20 rfl rfl
     (by decide) (by decide)⟩

/-- `FileAttachment` from `src/backend/src/types/index.ts`. -/
structure FileAttachment where
  name : String
  mediaType : String
  data : String
deriving DecidableEq, Repr

/-- `ChatMessage` from `src/backend/src/types/index.ts`. -/
structure ChatMessage where
  role : MsgRole
  content : String
  attachments : List FileAttachment
deriving DecidableEq, Repr

/-- `ChatRequest` from `src/backend/src/types/index.ts` (temperature is
a decimal number, modelled as `ℚ`). -/
structure ChatRequest where
  model : String
  messages : List ChatMessage
  systemPrompt : Option String
  maxTokens : Option Nat
  temperature : Option ℚ
deriving DecidableEq, Repr

/-- JS `o || d` for an optional number (0 is falsy). -/
def jsOrNat (o : Option Nat) (d : Nat) : Nat :=
  match o with
  | some n => if n = 0 then d else n
  | none => d

/-- JS `o || d` for an optional decimal number (0 is falsy). -/
def jsOrQ (o : Option ℚ) (d : ℚ) : ℚ :=
  match o with
  | some q => if q = 0 then d else q
  | none => d

/-- The `inferenceConfig` of the `ConverseCommand` built by
`invokeBedrock` (`src/backend/src/services/bedrock.ts` lines 58-61):
`maxTokens: request.maxTokens || 4096`, `temperature:
request.temperature || 0.7`.  Returned as `(maxTokens, temperature)`. -/
def bedrockInferenceConfig (request : ChatRequest) : Nat × ℚ :=
  (jsOrNat request.maxTokens 4096, jsOrQ request.temperature 0.7)

/-- The generation `config` built by `invokeGemini`
(`src/backend/src/handlers/conversations.ts` concatenation, gemini
service lines 206-210): `maxOutputTokens: request.maxTokens || 8192`,
`temperature: request.temperature || 0.7`. -/
def geminiGenerationConfig (request : ChatRequest) : Nat × ℚ :=
  (jsOrNat request.maxTokens 8192, jsOrQ request.temperature 0.7)

/-- The validation of `POST /chat`
(`src/backend/src/handlers/chat.ts` lines 213-225): missing model,
empty messages, unknown model — nothing else is checked. -/
def chatValidationError (request : ChatRequest) : Option String :=
  if request.model = "" then some "Model is required"
  else if request.messages.isEmpty then some "Messages are required"
  else if (MODEL_CONFIGS.lookup request.model).isNone then
    some ("Unknown model: " ++ request.model)
  else none

/-- A valid chat request carrying `temperature=0` and `maxTokens=1`. -/
def tempZeroRequest : ChatRequest :=
  { model := "us.anthropic.claude-sonnet-4-5-20250929-v1:0"
    messages := [{ role := .user, content := "hi", attachments := [] }]
    systemPrompt := none, maxTokens := some 1, temperature := some 0 }

/-- C8 counterexample: a request with `temperature=0, maxTokens=1`
passes validation, and `maxTokens=1` is forwarded — but both providers
compute `request.temperature || 0.7`, so the forwarded temperature is
0.7, not the requested 0: the default is applied even though the field
is present. -/
theorem temperature_zero_not_forwarded :
    chatValidationError tempZeroRequest = none ∧
    bedrockInferenceConfig tempZeroRequest = (1, 7/10) ∧
    geminiGenerationConfig tempZeroRequest = (1, 7/10) ∧
    (7/10 : ℚ) ≠ 0 := by
  refine ⟨by decide, ?_, ?_, by norm_num⟩ <;>
    norm_num [bedrockInferenceConfig, geminiGenerationConfig, jsOrNat, jsOrQ,
      tempZeroRequest]

/-- C8 amended: validation ignores `maxTokens`/`temperature` entirely
(so `temperature=0, maxTokens=1` is accepted); a present non-zero
`maxTokens` or `temperature` is forwarded verbatim by both providers;
but `temperature=0` (and likewise `maxTokens=0`) falls back to the
default exactly as an absent field does — 0.7 for temperature on both
providers, 4096/8192 for maxTokens on bedrock/gemini. -/
theorem chat_params_forwarding (request : ChatRequest) (n : Nat) (t : ℚ) :
    (chatValidationError request =
      chatValidationError { request with maxTokens := none, temperature := none }) ∧
    (request.maxTokens = some n → n ≠ 0 →
      (bedrockInferenceConfig request).1 = n ∧ (geminiGenerationConfig request).1 = n) ∧
    (request.temperature = some t → t ≠ 0 →
      (bedrockInferenceConfig request).2 = t ∧ (geminiGenerationConfig request).2 = t) ∧
    (request.temperature = some 0 ∨ request.temperature = none →
      (bedrockInferenceConfig request).2 = 0.7 ∧
        (geminiGenerationConfig request).2 = 0.7) ∧
    (request.maxTokens = some 0 ∨ request.maxTokens = none →
      (bedrockInferenceConfig request).1 = 4096 ∧
        (geminiGenerationConfig request).1 = 8192) := by
  refine ⟨rfl, ?_, ?_, ?_, ?_⟩
  · intro hmt hn
    rw [bedrockInferenceConfig, geminiGenerationConfig]
    simp [jsOrNat, hmt, hn]
  · intro ht htn
    rw [bedrockInferenceConfig, geminiGenerationConfig]
    simp [jsOrQ, ht, htn]
  · rintro (ht | ht) <;>
      · rw [bedrockInferenceConfig, geminiGenerationConfig]
        simp [jsOrQ, ht]
  · rintro (hmt | hmt) <;>
      · rw [bedrockInferenceConfig, geminiGenerationConfig]
        simp [jsOrNat, hmt]

/-- Witness for `chat_params_forwarding`: the concrete request with
`temperature=0, maxTokens=1`. -/
theorem chat_params_forwarding_witness :
    tempZeroRequest.maxTokens = some 1 ∧ (1 : Nat) ≠ 0 ∧
    tempZeroRequest.temperature = some 0 ∧
    (bedrockInferenceConfig tempZeroRequest).1 = 1 ∧
    (geminiGenerationConfig tempZeroRequest).1 = 1 ∧
    (bedrockInferenceConfig tempZeroRequest).2 = 0.7 ∧
    (geminiGenerationConfig tempZeroRequest).2 = 0.7 := by
  have h := chat_params_forwarding tempZeroRequest 1 37
  have hmax := h.2.1 rfl (by decide)
  have htemp := h.2.2.2.1 (Or.inl rfl)
  exact ⟨rfl, by decide, rfl, hmax.1, hmax.2, htemp.1, htemp.2⟩

/-- A raw item of the single wide table as the conversations handler
sees it: its composite key plus the rest of its attributes, abstracted
as an opaque payload returned verbatim. -/
structure TableItem where
  PK : String
  SK : String
  payload : String
deriving DecidableEq, Repr

/-- The base-table `QueryCommand` on `PK = :pk`
(`src/backend/src/handlers/conversations.ts` lines 53-60 and 77-84). -/
def queryPartition (table : List TableItem) (pk : String) : List TableItem :=
  table.filter (fun item => item.PK == pk)

/-- The `GET /conversations/{conversationId}` route
(`src/backend/src/handlers/conversations.ts` lines 48-72 and 133-145):
query the partition, split the `META` item from the `MSG#` items, 404
when there is no metadata.  The handler reads nothing but the path;
`caller` stands for the requester's identity and is never consulted. -/
def getConversationRoute (table : List TableItem) (conversationId : String)
    (caller : String) : Nat × Option TableItem × List TableItem :=
  let items := queryPartition table ("CONV#" ++ conversationId)
  match items.find? (fun item => item.SK == "META") with
  | none => (404, none, [])
  | some metaItem =>
    (200, some metaItem, items.filter (fun item => beginsWith "MSG#" item.SK))

/-- The batching of the delete loop
(`src/backend/src/handlers/conversations.ts` lines 92-110): slices of at
most 25 items. -/
def chunk25 {α : Type} : List α → List (List α)
  | [] => []
  | x :: xs => ((x :: xs).take 25) :: chunk25 ((x :: xs).drop 25)
termination_by l => l.length
decreasing_by
  simp [List.length_drop]
  omega

/-- One `BatchWriteCommand` of delete requests: every item whose key
matches a key in the batch is removed. -/
def applyBatchDelete (table : List TableItem) (batch : List TableItem) :
    List TableItem :=
  table.filter (fun item =>
    !(batch.any (fun b => b.PK == item.PK && b.SK == item.SK)))

/-- The `DELETE /conversations/{conversationId}` route
(`src/backend/src/handlers/conversations.ts` lines 75-111 and 148-156):
query the partition's keys, throw (mapped to 500 by the handler's catch)
when empty, otherwise batch-delete every queried key in chunks of 25
and return 200.  `caller` is never consulted. -/
def deleteConversationRoute (table : List TableItem) (conversationId : String)
    (caller : String) : Nat × List TableItem :=
  let items := queryPartition table ("CONV#" ++ conversationId)
  if items.isEmpty then (500, table)
  else (200, (chunk25 items).foldl applyBatchDelete table)

/-- Splitting a list into 25-chunks preserves `any`. -/
theorem chunk25_any {α : Type} (l : List α) (f : α → Bool) :
    (chunk25 l).any (fun b => b.any f) = l.any f := by
  induction l using chunk25.induct with
  | case1 => simp [chunk25]
  | case2 x xs ih =>
    rw [chunk25]
    conv_rhs => rw [← List.take_append_drop 25 (x :: xs)]
    rw [List.any_append, List.any_cons]
    rw [ih]

/-- Every chunk holds at most 25 items. -/
theorem chunk25_length_le {α : Type} (l : List α) :
    ∀ b ∈ chunk25 l, b.length ≤ 25 := by
  induction l using chunk25.induct with
  | case1 => simp [chunk25]
  | case2 x xs ih =>
    rw [chunk25]
    intro b hb
    rcases List.mem_cons.mp hb with hb | hb
    · subst hb
      simp [List.length_take]
    · exact ih b hb

/-- Folding the batch deletes equals one filter over the union of the
batches. -/
theorem foldl_applyBatchDelete (bs : List (List TableItem)) (t : List TableItem) :
    bs.foldl applyBatchDelete t =
      t.filter (fun item => !(bs.any (fun batch =>
        batch.any (fun b => b.PK == item.PK && b.SK == item.SK)))) := by
  induction bs generalizing t with
  | nil => simp
  | cons b bs ih =>
    rw [List.foldl_cons, ih, applyBatchDelete, List.filter_filter]
    apply List.filter_congr
    intro a _
    simp only [List.any_cons, Bool.not_or, Bool.and_comm]

/-- C10: the conversation routes consult no identity.  For every stored
conversation (a partition with a `META` item): GET returns 200 with the
metadata item and exactly the partition's `MSG#` items, identically for
every caller; DELETE returns 200, removes exactly the items of the
partition (every other item survives), issues its deletes in batches of
at most 25 keys, and behaves identically for every caller. -/
theorem conversations_routes_no_auth (table : List TableItem) (cid : String)
    (m : TableItem) (callerA callerB : String)
    (hmeta : (queryPartition table ("CONV#" ++ cid)).find?
      (fun item => item.SK == "META") = some m) :
    getConversationRoute table cid callerA =
      (200, some m, (queryPartition table ("CONV#" ++ cid)).filter
        (fun item => beginsWith "MSG#" item.SK)) ∧
    (∀ item, item ∈ (getConversationRoute table cid callerA).2.2 ↔
      (item ∈ table ∧ item.PK = "CONV#" ++ cid ∧ beginsWith "MSG#" item.SK = true)) ∧
    getConversationRoute table cid callerA = getConversationRoute table cid callerB ∧
    (deleteConversationRoute table cid callerA).1 = 200 ∧
    (∀ item, item ∈ (deleteConversationRoute table cid callerA).2 ↔
      (item ∈ table ∧ ¬item.PK = "CONV#" ++ cid)) ∧
    (∀ batch ∈ chunk25 (queryPartition table ("CONV#" ++ cid)), batch.length ≤ 25) ∧
    deleteConversationRoute table cid callerA = deleteConversationRoute table cid callerB := by
  have hget : getConversationRoute table cid callerA =
      (200, some m, (queryPartition table ("CONV#" ++ cid)).filter
        (fun item => beginsWith "MSG#" item.SK)) := by
    simp only [getConversationRoute, hmeta]
  have hne : ¬(queryPartition table ("CONV#" ++ cid)).isEmpty = true := by
    have hm := List.mem_of_find?_eq_some hmeta
    intro habs
    rw [List.isEmpty_iff] at habs
    rw [habs] at hm
    cases hm
  have hdel : deleteConversationRoute table cid callerA =
      (200, (chunk25 (queryPartition table ("CONV#" ++ cid))).foldl
        applyBatchDelete table) := by
    simp only [deleteConversationRoute, hne, if_false, Bool.false_eq_true]
  refine ⟨hget, ?_, ?_, ?_, ?_, ?_, ?_⟩
  · intro item
    rw [hget]
    simp only [List.mem_filter, queryPartition, beq_iff_eq]
    tauto
  · unfold getConversationRoute
    rfl
  · rw [hdel]
  · intro item
    rw [hdel, foldl_applyBatchDelete, List.mem_filter,
      chunk25_any (queryPartition table ("CONV#" ++ cid))
        (fun b => b.PK == item.PK && b.SK == item.SK),
      Bool.not_eq_true', List.any_eq_false]
    constructor
    · rintro ⟨hmem, hall⟩
      refine ⟨hmem, fun hpk => ?_⟩
      have hitem : item ∈ queryPartition table ("CONV#" ++ cid) := by
        rw [queryPartition, List.mem_filter]
        exact ⟨hmem, by rw [hpk]; simp⟩
      exact hall item hitem (by simp)
    · rintro ⟨hmem, hpk⟩
      refine ⟨hmem, fun x hx habs => ?_⟩
      rw [queryPartition, List.mem_filter] at hx
      have hxpk : x.PK = "CONV#" ++ cid := by
        have := hx.2
        simpa using this
      rw [Bool.and_eq_true] at habs
      have hxitem : x.PK = item.PK := by
        have := habs.1
        simpa using this
      exact hpk (hxitem ▸ hxpk)
  · exact chunk25_length_le _
  · unfold deleteConversationRoute
    rfl

/-- A concrete table: conversation `c1` (metadata plus two messages)
alongside an unrelated conversation item. -/
def sampleConvTable : List TableItem :=
  [{ PK := "CONV#c1", SK := "META", payload := "meta-c1" },
   { PK := "CONV#c1", SK := "MSG#2026-01-01T00:00:01.000Z#m1", payload := "user-msg" },
   { PK := "CONV#c1", SK := "MSG#2026-01-01T00:00:02.000Z#m2", payload := "asst-msg" },
   { PK := "CONV#c2", SK := "META", payload := "meta-c2" }]

/-- Witness for `conversations_routes_no_auth`: the concrete table,
queried and deleted by two unrelated callers. -/
theorem conversations_routes_no_auth_witness :
    (queryPartition sampleConvTable "CONV#c1").find?
      (fun item => item.SK == "META") =
        some { PK := "CONV#c1", SK := "META", payload := "meta-c1" } ∧
    (getConversationRoute sampleConvTable "c1" "mallory").1 = 200 ∧
    ({ PK := "CONV#c1", SK := "MSG#2026-01-01T00:00:01.000Z#m1",
       payload := "user-msg" : TableItem } ∈
      (getConversationRoute sampleConvTable "c1" "mallory").2.2) ∧
    (deleteConversationRoute sampleConvTable "c1" "mallory").1 = 200 ∧
    ¬({ PK := "CONV#c1", SK := "META", payload := "meta-c1" : TableItem } ∈
      (deleteConversationRoute sampleConvTable "c1" "mallory").2) ∧
    ({ PK := "CONV#c2", SK := "META", payload := "meta-c2" : TableItem } ∈
      (deleteConversationRoute sampleConvTable "c1" "mallory").2) ∧
    deleteConversationRoute sampleConvTable "c1" "mallory" =
      deleteConversationRoute sampleConvTable "c1" "alice" := by
  have h := conversations_routes_no_auth sampleConvTable "c1"
    { PK := "CONV#c1", SK := "META", payload := "meta-c1" } "mallory" "alice"
    (by decide)
  refine ⟨by decide, ?_, ?_, h.2.2.2.1, ?_, ?_, h.2.2.2.2.2.2⟩
  · rw [h.1]
  · exact (h.2.1 _).mpr ⟨by decide, by decide, by decide⟩
  · intro habs
    have := (h.2.2.2.2.1 _).mp habs
    exact this.2 rfl
  · exact (h.2.2.2.2.1 _).mpr ⟨by decide, by decide⟩

end AIConnective
